import Mathlib

/-!
# Verification of the tiedie BLE gateway access-point core

Shallow embedding of the gateway's access-point layer
(`src/gateway/access_point.py`, `src/gateway/ble_types.py`,
`src/gateway/mock/mock_access_point.py`,
`src/gateway/silabs/silabs_access_point.py` and the silabs
`ble_operations`), together with theorems settling the behavioural
claims about connection-registry preconditions, the discovery walk,
capability-flag decoding, subscriptions and teardown.

Python dictionaries are embedded as insertion-ordered association
lists over `String` keys; byte strings as `List Nat`; raised
exceptions as an explicit error type; a call that blocks forever on
`threading.Event.wait()` is a distinguished `blocked` outcome.
-/

namespace Tiedie

/-- Insertion-ordered Python `dict[str, α]`. -/
abbrev Dict (α : Type) := List (String × α)

/-- `d.get(k, None)` / `d[k]` lookup: the (unique) binding of `k`. -/
def dictGet {α : Type} : Dict α → String → Option α
  | [], _ => none
  | p :: tl, k => if p.1 == k then some p.2 else dictGet tl k

/-- `k in d` membership test. -/
def dictMember {α : Type} : Dict α → String → Bool
  | [], _ => false
  | p :: tl, k => p.1 == k || dictMember tl k

/-- `d[k] = v`: overwrite the binding in place if the key is present,
else append (Python insertion order). -/
def dictInsert {α : Type} : Dict α → String → α → Dict α
  | [], k, v => [(k, v)]
  | p :: tl, k, v => if p.1 == k then (k, v) :: tl else p :: dictInsert tl k v

/-- `d.pop(k)`: remove the binding of `k`. -/
def dictPop {α : Type} : Dict α → String → Dict α
  | [], _ => []
  | p :: tl, k => if p.1 == k then dictPop tl k else p :: dictPop tl k

/-- `d[k] = f(d[k])` on an existing key: update the value in place. -/
def dictUpdate {α : Type} : Dict α → String → (α → α) → Dict α
  | [], _, _ => []
  | p :: tl, k, f =>
      if p.1 == k then (p.1, f p.2) :: dictUpdate tl k f
      else p :: dictUpdate tl k f

/-- `list(d.values())`. -/
def dictValues {α : Type} (d : Dict α) : List α :=
  d.map (fun p => p.2)

/-- `list(d.keys())`. -/
def dictKeys {α : Type} (d : Dict α) : List String :=
  d.map (fun p => p.1)

/-! ## `ble_types.py` -/

/-- `Descriptor` dataclass: UUID and backend handle. -/
structure Descriptor where
  descriptor_id : String
  desc_handle : Nat
deriving Repr, DecidableEq

/-- The fixed bit-test chain in `Characteristic.__init__`
(`ble_types.py` lines 34-47): each mask is tested independently with
`(properties & m) == m` and the flag name appended in source order. -/
def decodeProperties (p : Nat) : List String :=
  (if p &&& 0x02 = 0x02 then ["read"] else [])
  ++ (if p &&& 0x04 = 0x04 then ["write_no_response"] else [])
  ++ (if p &&& 0x08 = 0x08 then ["write"] else [])
  ++ (if p &&& 0x10 = 0x10 then ["notify"] else [])
  ++ (if p &&& 0x20 = 0x20 then ["indicate"] else [])
  ++ (if p &&& 0x80 = 0x80 then ["extended_props"] else [])
  ++ (if p &&& 0x101 = 0x101 then ["reliable_write"] else [])

/-- `Characteristic`: UUID, backend handle, decoded capability flags,
descriptor dict. -/
structure Characteristic where
  characteristic_id : String
  char_handle : Nat
  properties : List String
  descriptors : Dict Descriptor
deriving Repr, DecidableEq

/-- `Characteristic(characteristic_id, char_handle, properties)`
constructor: decodes the raw bitmask, starts with no descriptors. -/
def Characteristic.make (characteristic_id : String) (char_handle : Nat)
    (properties : Nat) : Characteristic :=
  ⟨characteristic_id, char_handle, decodeProperties properties, []⟩

/-- `Service` dataclass: UUID, backend handle, characteristic dict. -/
structure Service where
  service_id : String
  service_handle : Nat
  characteristics : Dict Characteristic
deriving Repr, DecidableEq

/-! ## `access_point.py`: registry and shared state -/

/-- `ConnectionRequest` dataclass. -/
structure ConnectionRequest where
  address : String
  handle : Nat
  services : Dict Service
deriving Repr, DecidableEq

/-- The `conn_reqs` map of addresses to connection requests. -/
abbrev Registry := Dict ConnectionRequest

/-- `AccessPoint.get_connection`: `self.conn_reqs.get(address, None)` —
a plain (case-sensitive) dict lookup. -/
def get_connection (conn_reqs : Registry) (address : String) :
    Option ConnectionRequest :=
  dictGet conn_reqs address

/-! ## Errors, responses, backend commands and events -/

/-- The exception taxonomy of `access_point_responses.py`, plus the
built-in Python exceptions the access-point code can raise. -/
inductive ApError where
  | connectionError (msg : String)
  | discoveryError (msg : String)
  | readError (msg : String)
  | writeError (msg : String)
  | subscribeError (msg : String)
  | unsubscribeError (msg : String)
  | disconnectError (msg : String)
  | keyError (key : String)
deriving Repr, DecidableEq

/-- Outcome of calling a (possibly blocking) access-point method:
normal return, raised exception, or a call that never returns because
`threading.Event.wait()` is never signalled. -/
inductive PyResult (α : Type) where
  | ok (a : α)
  | exn (e : ApError)
  | blocked
deriving Repr, DecidableEq

/-- `DiscoverResponse` dataclass (services as the list of discovered
`Service` values). -/
structure DiscoverResponse where
  address : String
  services : List Service
deriving Repr, DecidableEq

/-- `ReadResponse` dataclass; `value` is `none` for Python `None`. -/
structure ReadResponse where
  address : String
  service_uuid : String
  char_uuid : String
  value : Option (List Nat)
deriving Repr, DecidableEq

/-- `WriteResponse` dataclass. -/
structure WriteResponse where
  address : String
  service_uuid : String
  char_uuid : String
  value : Option (List Nat)
  success : Bool
deriving Repr, DecidableEq

/-- `SubscribeResponse` dataclass. -/
structure SubscribeResponse where
  address : String
  service_uuid : String
  char_uuid : String
  subscribed : Bool
deriving Repr, DecidableEq

/-- `UnsubscribeResponse` dataclass. -/
structure UnsubscribeResponse where
  address : String
  service_uuid : String
  char_uuid : String
  unsubscribed : Bool
deriving Repr, DecidableEq

/-- Commands the access point issues to the Silabs backend
(`self.lib.bt.gatt.*` / connection commands). -/
inductive BackendCmd where
  | discoverPrimaryServices (handle : Nat)
  | discoverCharacteristics (handle serviceHandle : Nat)
  | discoverDescriptors (handle charHandle : Nat)
  | readCharacteristicValue (handle charHandle : Nat)
  | writeCharacteristicValue (handle charHandle : Nat) (value : List Nat)
  | setCharacteristicNotification (handle charHandle : Nat) (enable : Bool)
  | closeConnection (handle : Nat)
deriving Repr, DecidableEq

/-- Inbound Silabs backend events. The `uuid` field stands for the
already-decoded identifier string `evt.uuid[::-1].hex()` computed by
the event handlers. -/
inductive BtEvent where
  | gattService (connection : Nat) (uuid : String) (service : Nat)
  | gattCharacteristic (connection : Nat) (uuid : String)
      (characteristic : Nat) (properties : Nat)
  | gattDescriptor (connection : Nat) (uuid : String) (descriptor : Nat)
  | gattProcedureCompleted (connection : Nat) (result : Nat)
  | gattCharacteristicValue (connection : Nat) (characteristic : Nat)
      (attOpcode : Nat) (value : List Nat)
  | connectionClosed (reason : Nat) (connection : Nat)
deriving Repr, DecidableEq

/-- The ATT opcode constant `ATT_OPCODE_READ_RESPONSE` (value 11 in the
Silabs SDK) used by `ReadOperation.bt_evt_gatt_characteristic_value`. -/
def ATT_OPCODE_READ_RESPONSE : Nat := 11

/-- Calls the access point makes on its `DataProducer` collaborator. -/
inductive Published where
  | connectionStatus (reason : Nat) (address : String) (connected : Bool)
  | notification (address service_uuid char_uuid : String) (value : List Nat)
deriving Repr, DecidableEq

/-! ## `mock/mock_access_point.py` -/

/-- State of a `MockAccessPoint`: the connection registry, the keys of
`_subscription_threads` (one live forwarding thread per key), and the
events published on the `DataProducer` so far (oldest first). -/
structure MockState where
  conn_reqs : Registry
  subscription_threads : List (String × String × String)
  published : List Published
deriving Repr, DecidableEq

/-- Fresh mock access point. -/
def MockState.init : MockState := ⟨[], [], []⟩

/-- `MockAccessPoint.connect`: `connectable()` is always true; fails if
the address is already registered, otherwise registers
`ConnectionRequest(address, 0, {})` and publishes a connected status
event with `ConnectionEvent(0)`. -/
def mockConnect (st : MockState) (address : String) :
    PyResult Unit × MockState :=
  if dictMember st.conn_reqs address then
    (.exn (.connectionError "already connected"), st)
  else
    (.ok (), { st with
      conn_reqs := dictInsert st.conn_reqs address ⟨address, 0, []⟩
      published := st.published ++ [.connectionStatus 0 address true] })

/-- The fixed service map built by `MockAccessPoint.discover`:
one service `"180d"` with characteristics `"2a37"` (notify, 0x10),
`"2a38"` (read, 0x02), `"2a39"` (write, 0x08); `"2a37"` carries
descriptor `"2902"`. -/
def mockService : Service :=
  { service_id := "180d"
    service_handle := 1
    characteristics :=
      [("2a37", { Characteristic.make "2a37" 1 0x10 with
                    descriptors := [("2902", ⟨"2902", 1⟩)] }),
       ("2a38", Characteristic.make "2a38" 2 0x02),
       ("2a39", Characteristic.make "2a39" 3 0x08)] }

/-- `MockAccessPoint.discover`: fails when not connected; otherwise
returns the fixed single-service response. It ignores the options and
does not touch the registry's cached service map. -/
def mockDiscover (st : MockState) (address : String) :
    PyResult DiscoverResponse × MockState :=
  if !dictMember st.conn_reqs address then
    (.exn (.discoveryError "not connected"), st)
  else
    (.ok ⟨address, [mockService]⟩, st)

/-- `MockAccessPoint.read`: fails when not connected; only the pair
`("180d", "2a38")` is readable and yields the fixed bytes `b"test"`. -/
def mockRead (st : MockState) (address service_uuid char_uuid : String) :
    PyResult ReadResponse × MockState :=
  if !dictMember st.conn_reqs address then
    (.exn (.readError "not connected"), st)
  else if service_uuid != "180d" || char_uuid != "2a38" then
    (.exn (.readError "Invalid service or characteristic uuid"), st)
  else
    (.ok ⟨address, service_uuid, char_uuid, some [116, 101, 115, 116]⟩, st)

/-- `MockAccessPoint.write`: fails when not connected; accepts any
write and reports success. -/
def mockWrite (st : MockState) (address service_uuid char_uuid : String)
    (value : List Nat) : PyResult WriteResponse × MockState :=
  if !dictMember st.conn_reqs address then
    (.exn (.writeError "not connected"), st)
  else
    (.ok ⟨address, service_uuid, char_uuid, some value, true⟩, st)

/-- `MockAccessPoint.subscribe`: fails when not connected; fails when a
subscription thread already exists for the exact key; otherwise
registers the key and reports subscribed. -/
def mockSubscribe (st : MockState) (address service_uuid char_uuid : String) :
    PyResult SubscribeResponse × MockState :=
  if !dictMember st.conn_reqs address then
    (.exn (.subscribeError "not connected"), st)
  else if st.subscription_threads.contains (address, service_uuid, char_uuid) then
    (.exn (.subscribeError "already subscribed"), st)
  else
    (.ok ⟨address, service_uuid, char_uuid, true⟩,
     { st with subscription_threads :=
         st.subscription_threads ++ [(address, service_uuid, char_uuid)] })

/-- `MockAccessPoint.unsubscribe`: raises `BleSubscribeError` (NOT the
unsubscribe error kind) when no subscription thread exists for the key
— it performs no connectivity check at all; otherwise removes the key
and reports unsubscribed. -/
def mockUnsubscribe (st : MockState) (address service_uuid char_uuid : String) :
    PyResult UnsubscribeResponse × MockState :=
  if !st.subscription_threads.contains (address, service_uuid, char_uuid) then
    (.exn (.subscribeError "not subscribed"), st)
  else
    let remaining := st.subscription_threads.filter
      (fun k => k != (address, service_uuid, char_uuid))
    (.ok ⟨address, service_uuid, char_uuid, true⟩,
     { st with subscription_threads := remaining })

/-- `MockAccessPoint.disconnect`: fails when not connected; otherwise
pops the registry entry and publishes a disconnected status event with
`ConnectionEvent(1)`. -/
def mockDisconnect (st : MockState) (address : String) :
    PyResult Unit × MockState :=
  if !dictMember st.conn_reqs address then
    (.exn (.disconnectError "not connected"), st)
  else
    (.ok (), { st with
      conn_reqs := dictPop st.conn_reqs address
      published := st.published ++ [.connectionStatus 1 address false] })

/-! ## `silabs/silabs_access_point.py` and `silabs/ble_operations/`

Caller-side methods submit a backend command and block on the
operation's `threading.Event`; inbound events are dispatched to the
operation's `bt_evt_*` handlers. We embed each `run` as a function of
the inbound event script: `wait()` consumes script events, applying
the operation's handlers, until a handler sets the event; an exhausted
script is the `blocked` outcome (the backend never answered, so the
caller never returns). A stray event whose handler would fault in the
source faults on the backend's event thread, not in the caller, so it
is embedded as a no-op for the caller-visible behaviour. -/

/-- A `SubscribeOperation` sitting on the access point's `operations`
list, as matched by `SilabsAccessPoint.unsubscribe` (connection handle
and characteristic handle). -/
structure SilabsSubscription where
  handle : Nat
  char_handle : Nat
  address : String
  service_uuid : String
  char_uuid : String
deriving Repr, DecidableEq

/-- State of a `SilabsAccessPoint`: registry, the `SubscribeOperation`s
on the operations list, and the events published on the
`DataProducer`. -/
structure SilabsState where
  conn_reqs : Registry
  subscribe_ops : List SilabsSubscription
  published : List Published
deriving Repr, DecidableEq

/-! ### `ble_operations/discover.py` -/

/-- Mutable state of a `DiscoverOperation`: connection handle, the
accumulating `services` dict, the keys standing for the
`current_service` / `current_characteristic` references, and the last
`bt_evt_gatt_procedure_completed` result code. -/
structure DiscoverOpSt where
  handle : Nat
  services : Dict Service
  currentService : Option String
  currentChar : Option (String × String)
  result : Nat
  isDone : Bool
deriving Repr, DecidableEq

/-- The `bt_evt_gatt_*` handlers of `DiscoverOperation`; the returned
flag is true when the handler signalled the operation's event
(`set()` in `bt_evt_gatt_procedure_completed`). -/
def discoverHandleEvt (st : DiscoverOpSt) (e : BtEvent) :
    DiscoverOpSt × Bool :=
  match e with
  | .gattService conn uuid svc =>
      if conn == st.handle then
        ({ st with services := dictInsert st.services uuid ⟨uuid, svc, []⟩ },
         false)
      else (st, false)
  | .gattCharacteristic conn uuid ch props =>
      if conn == st.handle then
        match st.currentService with
        | some sk =>
            let newChar := Characteristic.make uuid ch props
            let upd := fun (s : Service) =>
              { s with characteristics := dictInsert s.characteristics uuid newChar }
            ({ st with services := dictUpdate st.services sk upd }, false)
        | none => (st, false)
      else (st, false)
  | .gattDescriptor conn uuid dsc =>
      if conn == st.handle then
        match st.currentChar with
        | some (sk, ck) =>
            let updC := fun (c : Characteristic) =>
              { c with descriptors := dictInsert c.descriptors uuid ⟨uuid, dsc⟩ }
            let updS := fun (s : Service) =>
              { s with characteristics := dictUpdate s.characteristics ck updC }
            ({ st with services := dictUpdate st.services sk updS }, false)
        | none => (st, false)
      else (st, false)
  | .gattProcedureCompleted conn result =>
      if conn == st.handle then ({ st with result := result }, true)
      else (st, false)
  | _ => (st, false)

/-- `Operation.wait()` for a `DiscoverOperation`: consume script events
through the handlers until one signals the event; `none` when the
script is exhausted (the caller blocks forever). -/
def discoverWait (st : DiscoverOpSt) :
    List BtEvent → Option (DiscoverOpSt × List BtEvent)
  | [] => none
  | e :: rest =>
      let (st', pulse) := discoverHandleEvt st e
      if pulse then some (st', rest) else discoverWait st' rest

/-- Threaded context of a `DiscoverOperation.run`: operation state,
remaining inbound script, backend commands issued so far. -/
structure DiscoverCtx where
  st : DiscoverOpSt
  script : List BtEvent
  cmds : List BackendCmd
deriving Repr, DecidableEq

/-- How a `DiscoverOperation.run` call ended: `done` (`is_done` set),
`failedPhase` (a phase reported a non-zero result; the source logs the
error and plainly `return`s), or `blocked` (a `wait()` never
signalled). -/
inductive DiscoverStatus where
  | done
  | failedPhase
  | blocked
deriving Repr, DecidableEq

/-- The descriptor phase of `DiscoverOperation.run` for one service:
for each characteristic, issue `discover_descriptors`, wait, and stop
at the first non-zero result. -/
def descLoop (handle : Nat) (skey : String) :
    List String → DiscoverCtx → DiscoverCtx × DiscoverStatus
  | [], ctx => (ctx, .done)
  | ckey :: rest, ctx =>
      let charHandle :=
        ((dictGet ctx.st.services skey).bind
          (fun s => (dictGet s.characteristics ckey).map
            (fun c => c.char_handle))).getD 0
      let ctx' : DiscoverCtx :=
        { ctx with
          cmds := ctx.cmds ++ [.discoverDescriptors handle charHandle]
          st := { ctx.st with currentChar := some (skey, ckey) } }
      match discoverWait ctx'.st ctx'.script with
      | none => ({ ctx' with script := [] }, .blocked)
      | some (st', script') =>
          let ctx'' : DiscoverCtx := { ctx' with st := st', script := script' }
          if st'.result != 0 then (ctx'', .failedPhase)
          else descLoop handle skey rest ctx''

/-- The characteristic phase of `DiscoverOperation.run`: for each
service discovered in phase one, issue `discover_characteristics`,
wait, stop at the first non-zero result, then walk that service's
descriptors. -/
def svcLoop (handle : Nat) :
    List String → DiscoverCtx → DiscoverCtx × DiscoverStatus
  | [], ctx => (ctx, .done)
  | skey :: rest, ctx =>
      let svcHandle :=
        ((dictGet ctx.st.services skey).map
          (fun s => s.service_handle)).getD 0
      let ctx' : DiscoverCtx :=
        { ctx with
          cmds := ctx.cmds ++ [.discoverCharacteristics handle svcHandle]
          st := { ctx.st with currentService := some skey } }
      match discoverWait ctx'.st ctx'.script with
      | none => ({ ctx' with script := [] }, .blocked)
      | some (st', script') =>
          let ctx'' : DiscoverCtx := { ctx' with st := st', script := script' }
          if st'.result != 0 then (ctx'', .failedPhase)
          else
            let ckeys :=
              ((dictGet ctx''.st.services skey).map
                (fun s => dictKeys s.characteristics)).getD []
            match descLoop handle skey ckeys ctx'' with
            | (ctxDone, .done) => svcLoop handle rest ctxDone
            | r => r

/-- `DiscoverOperation.run`: discover primary services, wait; on
success walk every discovered service's characteristics and
descriptors; `is_done` only after the full walk. A non-zero phase
result only logs and returns — nothing is raised. -/
def discoverRun (handle : Nat) (script : List BtEvent) :
    DiscoverCtx × DiscoverStatus :=
  let ctx0 : DiscoverCtx :=
    ⟨⟨handle, [], none, none, 0, false⟩, script,
     [.discoverPrimaryServices handle]⟩
  match discoverWait ctx0.st ctx0.script with
  | none => ({ ctx0 with script := [] }, .blocked)
  | some (st', script') =>
      let ctx : DiscoverCtx := { ctx0 with st := st', script := script' }
      if st'.result != 0 then (ctx, .failedPhase)
      else
        match svcLoop handle (dictKeys ctx.st.services) ctx with
        | (ctx', .done) =>
            ({ ctx' with st := { ctx'.st with isDone := true } }, .done)
        | r => r

/-- `DiscoverOperation.response`: filters the walked services by the
requested identifiers when a non-empty filter was supplied. (In the
source this method exists but is never invoked by
`SilabsAccessPoint.discover`.) -/
def discoverOpResponse (handle : Nat) (requested : List String)
    (services : Dict Service) : DiscoverResponse :=
  if !requested.isEmpty then
    ⟨toString handle,
     (dictValues services).filter (fun s => requested.contains s.service_id)⟩
  else ⟨toString handle, dictValues services⟩

/-- `SilabsAccessPoint.discover`: fails when not connected; otherwise
runs the walk, then unconditionally stores `operation.services` into
the connection's cached service map and returns them all in a
`DiscoverResponse` — the `requested` filter is stored on the operation
but never consulted (`response()` is not called), and a phase failure
is not re-raised. -/
def silabsDiscover (st : SilabsState) (address : String)
    (requested : List String) (script : List BtEvent) :
    PyResult DiscoverResponse × SilabsState × List BackendCmd :=
  match dictGet st.conn_reqs address with
  | none => (.exn (.discoveryError "not connected"), st, [])
  | some cr =>
      let (ctx, status) := discoverRun cr.handle script
      match status with
      | .blocked => (.blocked, st, ctx.cmds)
      | _ =>
          let reqs' := dictUpdate st.conn_reqs address
            (fun c => { c with services := ctx.st.services })
          (.ok ⟨address, dictValues ctx.st.services⟩,
           { st with conn_reqs := reqs' }, ctx.cmds)

/-! ### `ble_operations/read.py` -/

/-- Mutable state of a `ReadOperation`: `value` is `none` while the
`value` attribute is still unset. -/
structure ReadOpSt where
  handle : Nat
  char_handle : Nat
  value : Option (List Nat)
  isSet : Bool
  isDone : Bool
deriving Repr, DecidableEq

/-- The `bt_evt_*` handlers of `ReadOperation`: a characteristic-value
event with matching connection, characteristic and the
`ATT_OPCODE_READ_RESPONSE` opcode stores the value and signals the
event; a procedure-completed event for the connection only marks the
operation done (it does not signal). -/
def readHandleEvt (st : ReadOpSt) (e : BtEvent) : ReadOpSt :=
  match e with
  | .gattCharacteristicValue conn ch op v =>
      if st.handle == conn && st.char_handle == ch
          && op == ATT_OPCODE_READ_RESPONSE then
        { st with value := some v, isSet := true }
      else st
  | .gattProcedureCompleted conn _ =>
      if st.handle == conn then { st with isDone := true } else st
  | _ => st

/-- `Operation.wait()` for a `ReadOperation`: consume script events
until the event is signalled. -/
def readWait (st : ReadOpSt) :
    List BtEvent → Option (ReadOpSt × List BtEvent)
  | [] => none
  | e :: rest =>
      let st' := readHandleEvt st e
      if st'.isSet then some (st', rest) else readWait st' rest

/-- `ReadOperation.response`: the address field is the connection
handle rendered in decimal (`str(self.handle)`), the UUID fields are
empty strings, and the value is the stored bytes when the event was
signalled and `None` otherwise. -/
def readOpResponse (st : ReadOpSt) : ReadResponse :=
  if st.isSet then ⟨toString st.handle, "", "", st.value⟩
  else ⟨toString st.handle, "", "", none⟩

/-- `SilabsAccessPoint.read`: fails when not connected; looks the pair
up in the cached service map (a missing key raises `KeyError`), issues
the backend read, waits, and returns `operation.response()`. -/
def silabsRead (st : SilabsState) (address service_uuid char_uuid : String)
    (script : List BtEvent) : PyResult ReadResponse × List BackendCmd :=
  match dictGet st.conn_reqs address with
  | none => (.exn (.readError "not connected"), [])
  | some cr =>
      match dictGet cr.services service_uuid with
      | none => (.exn (.keyError service_uuid), [])
      | some svc =>
          match dictGet svc.characteristics char_uuid with
          | none => (.exn (.keyError char_uuid), [])
          | some ch =>
              let op : ReadOpSt := ⟨cr.handle, ch.char_handle, none, false, false⟩
              let cmds := [BackendCmd.readCharacteristicValue cr.handle ch.char_handle]
              match readWait op script with
              | none => (.blocked, cmds)
              | some (op', _) => (.ok (readOpResponse op'), cmds)

/-! ### `ble_operations/write.py` -/

/-- Mutable state of a `WriteOperation`. -/
structure WriteOpSt where
  handle : Nat
  char_handle : Nat
  value_bytes : List Nat
  isSet : Bool
  isDone : Bool
deriving Repr, DecidableEq

/-- The `bt_evt_gatt_procedure_completed` handler of `WriteOperation`:
a completion event for the connection signals the event and marks the
operation done (the result code is ignored). -/
def writeHandleEvt (st : WriteOpSt) (e : BtEvent) : WriteOpSt :=
  match e with
  | .gattProcedureCompleted conn _ =>
      if st.handle == conn then { st with isSet := true, isDone := true }
      else st
  | _ => st

/-- `Operation.wait()` for a `WriteOperation`. -/
def writeWait (st : WriteOpSt) :
    List BtEvent → Option (WriteOpSt × List BtEvent)
  | [] => none
  | e :: rest =>
      let st' := writeHandleEvt st e
      if st'.isSet then some (st', rest) else writeWait st' rest

/-- `SilabsAccessPoint.write`: fails when not connected; looks the pair
up in the cached service map (`KeyError` on a missing key), issues the
backend write, waits for the procedure-completed acknowledgment, then
returns a response with `success=True` ("Assume success for now"). -/
def silabsWrite (st : SilabsState) (address service_uuid char_uuid : String)
    (value : List Nat) (script : List BtEvent) :
    PyResult WriteResponse × List BackendCmd :=
  match dictGet st.conn_reqs address with
  | none => (.exn (.writeError "not connected"), [])
  | some cr =>
      match dictGet cr.services service_uuid with
      | none => (.exn (.keyError service_uuid), [])
      | some svc =>
          match dictGet svc.characteristics char_uuid with
          | none => (.exn (.keyError char_uuid), [])
          | some ch =>
              let op : WriteOpSt := ⟨cr.handle, ch.char_handle, value, false, false⟩
              let cmds := [BackendCmd.writeCharacteristicValue cr.handle ch.char_handle value]
              match writeWait op script with
              | none => (.blocked, cmds)
              | some _ =>
                  (.ok ⟨address, service_uuid, char_uuid, some value, true⟩, cmds)

/-! ### subscribe / unsubscribe -/

/-- Modelled from the spec: `SubscribeOperation.run`
(`silabs/ble_operations/subscribe.py`, not under `src/`) — "Enables
notify/indicate on the backend and registers a background forwarding
path". Its backend effect is the notification-enable command for its
connection and characteristic handles; it holds no reference to any
subscription registry, so it cannot detect a duplicate subscription. -/
def subscribeOpRun (handle char_handle : Nat) : List BackendCmd :=
  [.setCharacteristicNotification handle char_handle true]

/-- `SilabsAccessPoint.subscribe`: fails when not connected; looks the
pair up in the cached service map (`KeyError` on a missing key);
appends a fresh `SubscribeOperation` to the operations list, runs it,
and returns `subscribed=True` — with no check that a subscription for
the key already exists. -/
def silabsSubscribe (st : SilabsState) (address service_uuid char_uuid : String) :
    PyResult SubscribeResponse × SilabsState × List BackendCmd :=
  match dictGet st.conn_reqs address with
  | none => (.exn (.subscribeError "not connected"), st, [])
  | some cr =>
      match dictGet cr.services service_uuid with
      | none => (.exn (.keyError service_uuid), st, [])
      | some svc =>
          match dictGet svc.characteristics char_uuid with
          | none => (.exn (.keyError char_uuid), st, [])
          | some ch =>
              let op : SilabsSubscription :=
                ⟨cr.handle, ch.char_handle, address, service_uuid, char_uuid⟩
              (.ok ⟨address, service_uuid, char_uuid, true⟩,
               { st with subscribe_ops := st.subscribe_ops ++ [op] },
               subscribeOpRun cr.handle ch.char_handle)

/-- `SilabsAccessPoint.unsubscribe`: fails with the unsubscribe error
kind when not connected; looks the pair up (`KeyError` on a missing
key); scans the operations list for the first `SubscribeOperation`
matching the connection and characteristic handles and disables it
(modelled from the spec for the missing
`SubscribeOperation.disable_notification`: issue the
notification-disable command and retire the operation); with no match
it fails with `BleUnsubscribeError("not subscribed")`. -/
def silabsUnsubscribe (st : SilabsState) (address service_uuid char_uuid : String) :
    PyResult UnsubscribeResponse × SilabsState × List BackendCmd :=
  match dictGet st.conn_reqs address with
  | none => (.exn (.unsubscribeError "not connected"), st, [])
  | some cr =>
      match dictGet cr.services service_uuid with
      | none => (.exn (.keyError service_uuid), st, [])
      | some svc =>
          match dictGet svc.characteristics char_uuid with
          | none => (.exn (.keyError char_uuid), st, [])
          | some ch =>
              let isMatch := fun (o : SilabsSubscription) =>
                o.handle == cr.handle && o.char_handle == ch.char_handle
              match st.subscribe_ops.find? isMatch with
              | none => (.exn (.unsubscribeError "not subscribed"), st, [])
              | some _ =>
                  (.ok ⟨address, service_uuid, char_uuid, true⟩,
                   { st with subscribe_ops := st.subscribe_ops.eraseP isMatch },
                   [.setCharacteristicNotification cr.handle ch.char_handle false])

/-! ### connect / disconnect / connection-closed -/

/-- `SilabsAccessPoint.connectable`:
`len(self.conn_reqs) < SL_BT_CONFIG_MAX_CONNECTIONS`, with the
capacity constant (from the repository's `config.py`, not under
`src/`) as a parameter. -/
def silabsConnectable (conn_reqs : Registry) (maxConnections : Nat) : Bool :=
  conn_reqs.length < maxConnections

/-- `SilabsAccessPoint.connect`. The missing `ConnectOperation`
(`silabs/ble_operations/connect.py`, not under `src/`) is modelled
from the spec by its observable outcome: `backendHandle = some h` when
the connect succeeded with connection handle `h` (`operation.is_set()`
with `operation.handle = h`), `none` on backend failure. The
registry logic is from the source: capacity check, already-connected
check, then on success register `ConnectionRequest(address, handle, {})`. -/
def silabsConnect (st : SilabsState) (address : String)
    (maxConnections : Nat) (backendHandle : Option Nat) :
    PyResult Unit × SilabsState :=
  if !silabsConnectable st.conn_reqs maxConnections then
    (.exn (.connectionError "max connections"), st)
  else if dictMember st.conn_reqs address then
    (.exn (.connectionError "already connected"), st)
  else
    match backendHandle with
    | none => (.exn (.connectionError "connection operation failed"), st)
    | some h =>
        (.ok (), { st with conn_reqs := dictInsert st.conn_reqs address ⟨address, h, []⟩ })

/-- `SilabsAccessPoint.disconnect`: the very first statement is
`self.conn_reqs[address].handle`, so an unknown address raises a bare
`KeyError`; otherwise a `DisconnectOperation` (missing
`silabs/ble_operations/disconnect.py`, modelled from the spec by its
close-connection command and its `is_set()` outcome `opAcked`) runs,
and a failed operation raises `BleDisconnectError`. The method itself
neither removes the registry entry nor publishes anything. -/
def silabsDisconnect (st : SilabsState) (address : String) (opAcked : Bool) :
    PyResult Unit × SilabsState × List BackendCmd :=
  match dictGet st.conn_reqs address with
  | none => (.exn (.keyError address), st, [])
  | some cr =>
      let cmds := [BackendCmd.closeConnection cr.handle]
      if !opAcked then (.exn (.disconnectError "disconnect operation failed"), st, cmds)
      else (.ok (), st, cmds)

/-- `SilabsAccessPoint.bt_evt_connection_closed`: pop the first
registry entry whose handle equals the closed connection, if any.
It publishes nothing and never raises. -/
def btEvtConnectionClosed (st : SilabsState) (connection : Nat) : SilabsState :=
  match st.conn_reqs.find? (fun p => p.2.handle == connection) with
  | some p => { st with conn_reqs := dictPop st.conn_reqs p.1 }
  | none => st

/-- The access-point-level part of `SilabsAccessPoint.event_handler`:
the `getattr` dispatch reaches `bt_evt_connection_closed` for a
connection-closed event and no access-point handler otherwise. -/
def silabsApEvent (st : SilabsState) (e : BtEvent) : SilabsState :=
  match e with
  | .connectionClosed _ conn => btEvtConnectionClosed st conn
  | _ => st

/-! ## Dictionary lemmas -/

theorem dictGet_insert {α : Type} (d : Dict α) (k k' : String) (v : α) :
    dictGet (dictInsert d k v) k' = if k' = k then some v else dictGet d k' := by
  induction d with
  | nil =>
      by_cases h : k' = k
      · subst h; simp [dictInsert, dictGet]
      · simp [dictInsert, dictGet, h, Ne.symm h]
  | cons p tl ih =>
      by_cases hp : p.1 = k
      · by_cases h : k' = k
        · subst h; simp [dictInsert, dictGet, hp]
        · simp [dictInsert, dictGet, hp, h, Ne.symm h]
      · by_cases h : k' = k
        · subst h; simp [dictInsert, dictGet, hp, ih]
        · simp [dictInsert, dictGet, hp, h, ih]

theorem dictGet_update {α : Type} (d : Dict α) (k k' : String) (f : α → α) :
    dictGet (dictUpdate d k f) k' =
      if k' = k then (dictGet d k).map f else dictGet d k' := by
  induction d with
  | nil => by_cases h : k' = k <;> simp [dictUpdate, dictGet, h]
  | cons p tl ih =>
      by_cases hp : p.1 = k
      · by_cases h : k' = k
        · subst h; simp [dictUpdate, dictGet, hp]
        · simp [dictUpdate, dictGet, hp, h, Ne.symm h, ih]
      · by_cases h : k' = k
        · subst h; simp [dictUpdate, dictGet, hp, ih]
        · simp [dictUpdate, dictGet, hp, h, ih]

theorem dictGet_pop {α : Type} (d : Dict α) (k k' : String) :
    dictGet (dictPop d k) k' = if k' = k then none else dictGet d k' := by
  induction d with
  | nil => by_cases h : k' = k <;> simp [dictPop, dictGet, h]
  | cons p tl ih =>
      by_cases hp : p.1 = k
      · by_cases h : k' = k
        · subst h; simp [dictPop, hp, ih]
        · simp [dictPop, dictGet, hp, h, Ne.symm h, ih]
      · by_cases h : k' = k
        · subst h; simp [dictPop, dictGet, hp, ih]
        · simp [dictPop, dictGet, hp, h, ih]

theorem dictMember_eq_isSome {α : Type} (d : Dict α) (k : String) :
    dictMember d k = (dictGet d k).isSome := by
  induction d with
  | nil => rfl
  | cons p tl ih =>
      by_cases hp : p.1 = k <;> simp [dictMember, dictGet, hp, ih]

theorem dictMember_update {α : Type} (d : Dict α) (k k' : String) (f : α → α) :
    dictMember (dictUpdate d k f) k' = dictMember d k' := by
  induction d with
  | nil => rfl
  | cons p tl ih =>
      by_cases hp : p.1 = k <;> simp [dictUpdate, dictMember, hp, ih]

/-! ## Access-point step lemmas -/

theorem mockConnect_already {st : MockState} {a : String}
    (h : dictMember st.conn_reqs a = true) :
    mockConnect st a = (.exn (.connectionError "already connected"), st) := by
  simp [mockConnect, h]

theorem mockConnect_fresh {st : MockState} {a : String}
    (h : dictMember st.conn_reqs a = false) :
    (mockConnect st a).2.conn_reqs = dictInsert st.conn_reqs a ⟨a, 0, []⟩ := by
  simp [mockConnect, h]

theorem mockConnect_ok_iff (st : MockState) (a : String) :
    (mockConnect st a).1 = .ok () ↔ dictMember st.conn_reqs a = false := by
  by_cases h : dictMember st.conn_reqs a <;> simp [mockConnect, h]

theorem silabsConnect_exn_of_member {st : SilabsState} {a : String}
    (m : Nat) (o : Option Nat) (h : dictMember st.conn_reqs a = true) :
    ∃ msg, (silabsConnect st a m o).1 = .exn (.connectionError msg) := by
  by_cases hc : silabsConnectable st.conn_reqs m
  · exact ⟨"already connected", by simp [silabsConnect, hc, h]⟩
  · exact ⟨"max connections", by simp [silabsConnect, hc]⟩

theorem silabsConnect_ok {st : SilabsState} {a : String} {m h : Nat}
    (hok : (silabsConnect st a m (some h)).1 = .ok ()) :
    (silabsConnect st a m (some h)).2.conn_reqs
      = dictInsert st.conn_reqs a ⟨a, h, []⟩ := by
  by_cases hc : silabsConnectable st.conn_reqs m
  · by_cases hm : dictMember st.conn_reqs a
    · simp [silabsConnect, hc, hm] at hok
    · simp [silabsConnect, hc, hm]
  · simp [silabsConnect, hc] at hok

theorem silabsDiscover_member (st : SilabsState) (a b : String)
    (req : List String) (script : List BtEvent) :
    dictMember ((silabsDiscover st b req script).2.1.conn_reqs) a
      = dictMember st.conn_reqs a := by
  rcases hg : dictGet st.conn_reqs b with _ | cr
  · simp [silabsDiscover, hg]
  · rcases hr : discoverRun cr.handle script with ⟨ctx, status⟩
    cases status <;> simp [silabsDiscover, hg, hr, dictMember_update]

theorem silabsSubscribe_conn_reqs (st : SilabsState) (b s c : String) :
    (silabsSubscribe st b s c).2.1.conn_reqs = st.conn_reqs := by
  unfold silabsSubscribe
  repeat' split
  all_goals rfl

theorem silabsUnsubscribe_conn_reqs (st : SilabsState) (b s c : String) :
    (silabsUnsubscribe st b s c).2.1.conn_reqs = st.conn_reqs := by
  unfold silabsUnsubscribe
  repeat' split
  all_goals try rfl
  all_goals dsimp only
  repeat' split
  all_goals rfl

theorem mockSubscribe_ok {mst : MockState} {a s c : String}
    (hconn : dictMember mst.conn_reqs a = true)
    (hnew : mst.subscription_threads.contains (a, s, c) = false) :
    mockSubscribe mst a s c =
      (.ok ⟨a, s, c, true⟩,
       { mst with subscription_threads := mst.subscription_threads ++ [(a, s, c)] }) := by
  have hnotin : (a, s, c) ∉ mst.subscription_threads := by
    simpa using hnew
  simp [mockSubscribe, hconn, hnotin]

theorem mockDisconnect_absent {mst : MockState} {a : String}
    (h : dictMember mst.conn_reqs a = false) :
    mockDisconnect mst a = (.exn (.disconnectError "not connected"), mst) := by
  simp [mockDisconnect, h]

theorem silabsSubscribe_ok {st : SilabsState} {a s c : String}
    {cr : ConnectionRequest} {svc : Service} {ch : Characteristic}
    (h1 : dictGet st.conn_reqs a = some cr)
    (h2 : dictGet cr.services s = some svc)
    (h3 : dictGet svc.characteristics c = some ch) :
    silabsSubscribe st a s c =
      (.ok ⟨a, s, c, true⟩,
       { st with subscribe_ops := st.subscribe_ops ++ [⟨cr.handle, ch.char_handle, a, s, c⟩] },
       subscribeOpRun cr.handle ch.char_handle) := by
  simp [silabsSubscribe, h1, h2, h3]

theorem writeWait_isSome_iff (op : WriteOpSt) (script : List BtEvent)
    (hset : op.isSet = false) :
    (writeWait op script).isSome = true ↔
      ∃ r, BtEvent.gattProcedureCompleted op.handle r ∈ script := by
  induction script generalizing op with
  | nil => simp [writeWait]
  | cons e rest ih =>
    cases e with
    | gattProcedureCompleted conn r =>
        by_cases hc : op.handle = conn
        · subst hc
          simp [writeWait, writeHandleEvt]
        · have hne : (op.handle == conn) = false := by simp [hc]
          simp [writeWait, writeHandleEvt, hne, hset, hc, ih op hset]
    | gattService conn u sh =>
        simp [writeWait, writeHandleEvt, hset, ih op hset]
    | gattCharacteristic conn u chh pr =>
        simp [writeWait, writeHandleEvt, hset, ih op hset]
    | gattDescriptor conn u dh =>
        simp [writeWait, writeHandleEvt, hset, ih op hset]
    | gattCharacteristicValue conn chh opc vv =>
        simp [writeWait, writeHandleEvt, hset, ih op hset]
    | connectionClosed rsn conn =>
        simp [writeWait, writeHandleEvt, hset, ih op hset]

theorem readWait_spec (op : ReadOpSt) (script : List BtEvent)
    (hset : op.isSet = false) :
    (∀ op' rest, readWait op script = some (op', rest) →
        op'.handle = op.handle ∧ op'.isSet = true
        ∧ ∃ v, op'.value = some v
            ∧ BtEvent.gattCharacteristicValue op.handle op.char_handle
                ATT_OPCODE_READ_RESPONSE v ∈ script)
    ∧ ((∀ v, BtEvent.gattCharacteristicValue op.handle op.char_handle
          ATT_OPCODE_READ_RESPONSE v ∉ script) →
        readWait op script = none) := by
  induction script generalizing op with
  | nil =>
      exact ⟨fun op' rest h => by simp [readWait] at h, fun _ => rfl⟩
  | cons e rest' ih =>
    have tailStep : ∀ (st' : ReadOpSt),
        st'.handle = op.handle → st'.char_handle = op.char_handle →
        st'.isSet = false →
        (∀ op' rest, readWait st' rest' = some (op', rest) →
            op'.handle = op.handle ∧ op'.isSet = true
            ∧ ∃ v, op'.value = some v
                ∧ BtEvent.gattCharacteristicValue op.handle op.char_handle
                    ATT_OPCODE_READ_RESPONSE v ∈ e :: rest')
          ∧ ((∀ v, BtEvent.gattCharacteristicValue op.handle op.char_handle
                ATT_OPCODE_READ_RESPONSE v ∉ e :: rest') →
              readWait st' rest' = none) := by
      intro st' hh hch hs
      constructor
      · intro op' rest h
        obtain ⟨h1, h2, v, h3, h4⟩ := (ih st' hs).1 op' rest h
        rw [hh] at h1
        rw [hh, hch] at h4
        exact ⟨h1, h2, v, h3, List.mem_cons_of_mem _ h4⟩
      · intro hno
        refine (ih st' hs).2 (fun v hv => ?_)
        rw [hh, hch] at hv
        exact hno v (List.mem_cons_of_mem _ hv)
    cases e with
    | gattCharacteristicValue conn chh opc vv =>
        cases hb : (op.handle == conn && op.char_handle == chh
            && (opc == ATT_OPCODE_READ_RESPONSE)) with
        | true =>
            obtain ⟨⟨e1, e2⟩, e3⟩ : (op.handle = conn ∧ op.char_handle = chh)
                ∧ opc = ATT_OPCODE_READ_RESPONSE := by
              simpa [Bool.and_eq_true] using hb
            subst e1; subst e2; subst e3
            constructor
            · intro op' rest h
              rw [readWait] at h
              simp [readHandleEvt, hb] at h
              obtain ⟨hop, hrest⟩ := h
              refine ⟨by rw [← hop], by rw [← hop], vv, by rw [← hop], ?_⟩
              exact List.mem_cons_self _ _
            · intro hno
              exact absurd (List.mem_cons_self _ _) (hno vv)
        | false =>
            have hstep : readHandleEvt op (.gattCharacteristicValue conn chh opc vv) = op := by
              simp [readHandleEvt, hb]
            constructor
            · intro op' rest h
              rw [readWait, hstep] at h
              simp only [hset, if_neg] at h
              exact (tailStep op rfl rfl hset).1 op' rest (by simpa using h)
            · intro hno
              rw [readWait, hstep]
              simp only [hset]
              simpa using (tailStep op rfl rfl hset).2 hno
    | gattProcedureCompleted conn r =>
        by_cases hc : (op.handle == conn) = true
        · have hstep : readHandleEvt op (.gattProcedureCompleted conn r)
              = ⟨op.handle, op.char_handle, op.value, false, true⟩ := by
            simp [readHandleEvt, hc, hset]
          constructor
          · intro op' rest h
            rw [readWait, hstep] at h
            simp only [Bool.false_eq_true, if_false] at h
            exact (tailStep ⟨op.handle, op.char_handle, op.value, false, true⟩
              rfl rfl rfl).1 op' rest (by simpa using h)
          · intro hno
            rw [readWait, hstep]
            simp only [Bool.false_eq_true, if_false]
            simpa using (tailStep ⟨op.handle, op.char_handle, op.value, false, true⟩
              rfl rfl rfl).2 hno
        · have hstep : readHandleEvt op (.gattProcedureCompleted conn r) = op := by
            simp [readHandleEvt, hc]
          constructor
          · intro op' rest h
            rw [readWait, hstep] at h
            simp only [hset] at h
            exact (tailStep op rfl rfl hset).1 op' rest (by simpa using h)
          · intro hno
            rw [readWait, hstep]
            simp only [hset]
            simpa using (tailStep op rfl rfl hset).2 hno
    | gattService conn u sh =>
        constructor
        · intro op' rest h
          rw [readWait] at h
          simp only [readHandleEvt, hset] at h
          exact (tailStep op rfl rfl hset).1 op' rest (by simpa using h)
        · intro hno
          rw [readWait]
          simp only [readHandleEvt, hset]
          simpa using (tailStep op rfl rfl hset).2 hno
    | gattCharacteristic conn u chh pr =>
        constructor
        · intro op' rest h
          rw [readWait] at h
          simp only [readHandleEvt, hset] at h
          exact (tailStep op rfl rfl hset).1 op' rest (by simpa using h)
        · intro hno
          rw [readWait]
          simp only [readHandleEvt, hset]
          simpa using (tailStep op rfl rfl hset).2 hno
    | gattDescriptor conn u dh =>
        constructor
        · intro op' rest h
          rw [readWait] at h
          simp only [readHandleEvt, hset] at h
          exact (tailStep op rfl rfl hset).1 op' rest (by simpa using h)
        · intro hno
          rw [readWait]
          simp only [readHandleEvt, hset]
          simpa using (tailStep op rfl rfl hset).2 hno
    | connectionClosed rsn conn =>
        constructor
        · intro op' rest h
          rw [readWait] at h
          simp only [readHandleEvt, hset] at h
          exact (tailStep op rfl rfl hset).1 op' rest (by simpa using h)
        · intro hno
          rw [readWait]
          simp only [readHandleEvt, hset]
          simpa using (tailStep op rfl rfl hset).2 hno

theorem silabsDiscover_not_exn {st : SilabsState} {a : String}
    {req : List String} {script : List BtEvent} {cr : ConnectionRequest}
    (h1 : dictGet st.conn_reqs a = some cr) (e : ApError) :
    (silabsDiscover st a req script).1 ≠ .exn e := by
  rcases hr : discoverRun cr.handle script with ⟨ctx, status⟩
  cases status <;> simp [silabsDiscover, h1, hr]

theorem silabsDiscover_ok_services {st : SilabsState} {a : String}
    {req : List String} {script : List BtEvent} {cr : ConnectionRequest}
    (h1 : dictGet st.conn_reqs a = some cr) :
    ∀ resp, (silabsDiscover st a req script).1 = .ok resp →
      resp.services = dictValues (discoverRun cr.handle script).1.st.services
      ∧ dictGet (silabsDiscover st a req script).2.1.conn_reqs a
          = some { cr with services := (discoverRun cr.handle script).1.st.services } := by
  intro resp hresp
  rcases hr : discoverRun cr.handle script with ⟨ctx, status⟩
  cases status with
  | blocked => simp [silabsDiscover, h1, hr] at hresp
  | done =>
      simp only [silabsDiscover, h1, hr] at hresp ⊢
      simp at hresp
      constructor
      · rw [← hresp]
      · simp [dictGet_update, h1]
  | failedPhase =>
      simp only [silabsDiscover, h1, hr] at hresp ⊢
      simp at hresp
      constructor
      · rw [← hresp]
      · simp [dictGet_update, h1]

/-! ## Claim theorems -/

/-- C8: for every raw property bitmask `p`, the decoded capability-flag
list of a `Characteristic` contains `"read"` iff bit `0x02` is set,
`"write_no_response"` iff `0x04`, `"write"` iff `0x08`, `"notify"` iff
`0x10`, `"indicate"` iff `0x20`, `"extended_props"` iff `0x80`, and
`"reliable_write"` iff both bits of `0x101` are set, each tested
independently; the flags appear exactly in the order read,
write_no_response, write, notify, indicate, extended_props,
reliable_write; and `p = 0x12` decodes to exactly
`["read", "notify"]`. -/
theorem characteristic_property_decode (p : Nat) :
    (("read" ∈ (Characteristic.make "c" 0 p).properties ↔ p &&& 0x02 = 0x02)
      ∧ ("write_no_response" ∈ (Characteristic.make "c" 0 p).properties ↔ p &&& 0x04 = 0x04)
      ∧ ("write" ∈ (Characteristic.make "c" 0 p).properties ↔ p &&& 0x08 = 0x08)
      ∧ ("notify" ∈ (Characteristic.make "c" 0 p).properties ↔ p &&& 0x10 = 0x10)
      ∧ ("indicate" ∈ (Characteristic.make "c" 0 p).properties ↔ p &&& 0x20 = 0x20)
      ∧ ("extended_props" ∈ (Characteristic.make "c" 0 p).properties ↔ p &&& 0x80 = 0x80)
      ∧ ("reliable_write" ∈ (Characteristic.make "c" 0 p).properties ↔ p &&& 0x101 = 0x101))
    ∧ (Characteristic.make "c" 0 p).properties.Sublist
        ["read", "write_no_response", "write", "notify", "indicate",
         "extended_props", "reliable_write"]
    ∧ (Characteristic.make "c" 0 0x12).properties = ["read", "notify"] := by
  refine ⟨⟨?_, ?_, ?_, ?_, ?_, ?_, ?_⟩, ?_, by decide⟩
  case _ => simp [Characteristic.make, decodeProperties]
  case _ => simp [Characteristic.make, decodeProperties]
  case _ => simp [Characteristic.make, decodeProperties]
  case _ => simp [Characteristic.make, decodeProperties]
  case _ => simp [Characteristic.make, decodeProperties]
  case _ => simp [Characteristic.make, decodeProperties]
  case _ => simp [Characteristic.make, decodeProperties]
  case _ =>
    show (decodeProperties p).Sublist _
    unfold decodeProperties
    have hs : ∀ (c : Prop) [Decidable c] (x : String),
        (if c then [x] else []).Sublist [x] := by
      intro c _ x
      split
      · exact List.Sublist.refl _
      · exact List.nil_sublist _
    refine List.Sublist.trans
      (List.Sublist.append (List.Sublist.append (List.Sublist.append
        (List.Sublist.append (List.Sublist.append (List.Sublist.append
          (hs _ _) (hs _ _)) (hs _ _)) (hs _ _)) (hs _ _)) (hs _ _))
        (hs _ _)) ?_
    simp

/-- C1 (code-bug evidence): with an empty connection registry, the
silabs read/write/subscribe/unsubscribe/discover and the mock
read/write/subscribe/discover/disconnect operations each fail with
their own error kind and issue no backend command; but
`SilabsAccessPoint.disconnect` on an unknown address raises a bare
`KeyError` from `self.conn_reqs[address]` (its docstring promises
`DisconnectError`), and `MockAccessPoint.unsubscribe` raises
`BleSubscribeError`, not the unsubscribe error kind. -/
theorem unconnected_precondition_error_kinds :
    (silabsRead ⟨[], [], []⟩ "A" "s" "c" [] = (.exn (.readError "not connected"), []))
    ∧ (silabsWrite ⟨[], [], []⟩ "A" "s" "c" [1] [] = (.exn (.writeError "not connected"), []))
    ∧ (silabsSubscribe ⟨[], [], []⟩ "A" "s" "c" = (.exn (.subscribeError "not connected"), ⟨[], [], []⟩, []))
    ∧ (silabsUnsubscribe ⟨[], [], []⟩ "A" "s" "c" = (.exn (.unsubscribeError "not connected"), ⟨[], [], []⟩, []))
    ∧ (silabsDiscover ⟨[], [], []⟩ "A" [] [] = (.exn (.discoveryError "not connected"), ⟨[], [], []⟩, []))
    ∧ (silabsDisconnect ⟨[], [], []⟩ "A" true = (.exn (.keyError "A"), ⟨[], [], []⟩, []))
    ∧ ((mockRead MockState.init "A" "180d" "2a38").1 = .exn (.readError "not connected"))
    ∧ ((mockWrite MockState.init "A" "180d" "2a39" [1]).1 = .exn (.writeError "not connected"))
    ∧ ((mockSubscribe MockState.init "A" "s" "c").1 = .exn (.subscribeError "not connected"))
    ∧ ((mockDiscover MockState.init "A").1 = .exn (.discoveryError "not connected"))
    ∧ ((mockDisconnect MockState.init "A").1 = .exn (.disconnectError "not connected"))
    ∧ ((mockUnsubscribe MockState.init "A" "s" "c").1 = .exn (.subscribeError "not subscribed")) := by
  decide

/-- C9 (counterexample): connect to `"AA:BB:CC:DD:EE:FF"` on the mock
backend, then look up and connect the lower-case variant: the lookup
misses (`None`) and the second connect succeeds — registry correlation
is not case-insensitive, and two connections to case variants of one
peer address coexist. -/
theorem address_lookup_case_sensitive_cex :
    (mockConnect MockState.init "AA:BB:CC:DD:EE:FF").1 = .ok ()
    ∧ get_connection (mockConnect MockState.init "AA:BB:CC:DD:EE:FF").2.conn_reqs
        "aa:bb:cc:dd:ee:ff" = none
    ∧ (mockConnect (mockConnect MockState.init "AA:BB:CC:DD:EE:FF").2
        "aa:bb:cc:dd:ee:ff").1 = .ok () := by
  decide

/-- C9 (amended): registry lookup and correlation are exact
case-sensitive string matches: after a successful `connect(A)`,
`getConnection(A)` (same exact string) is non-null and a second
`connect(A)` fails with ConnectionError, while for any other address
string `B` — in particular a differently-cased variant of `A` — not
itself registered, `getConnection(B)` is null and `connect(B)`
succeeds, leaving both entries registered simultaneously; at most one
connection holds only per exact address string. -/
theorem address_lookup_exact_match (st : MockState) (a b : String)
    (hab : b ≠ a) (hb : dictMember st.conn_reqs b = false)
    (hok : (mockConnect st a).1 = .ok ()) :
    get_connection (mockConnect st a).2.conn_reqs a = some ⟨a, 0, []⟩
    ∧ (mockConnect (mockConnect st a).2 a).1
        = .exn (.connectionError "already connected")
    ∧ get_connection (mockConnect st a).2.conn_reqs b = none
    ∧ (mockConnect (mockConnect st a).2 b).1 = .ok ()
    ∧ dictMember (mockConnect (mockConnect st a).2 b).2.conn_reqs a = true
    ∧ dictMember (mockConnect (mockConnect st a).2 b).2.conn_reqs b = true := by
  have hma : dictMember st.conn_reqs a = false := by
    by_contra hmem
    rw [Bool.not_eq_false] at hmem
    rw [mockConnect_already hmem] at hok
    exact absurd hok (by simp)
  have hget : dictGet st.conn_reqs b = none := by
    cases hgb : dictGet st.conn_reqs b with
    | none => rfl
    | some v => rw [dictMember_eq_isSome, hgb] at hb; simp at hb
  have hst : (mockConnect st a).2.conn_reqs = dictInsert st.conn_reqs a ⟨a, 0, []⟩ := by
    rw [mockConnect_fresh hma]
  have hga : dictGet (mockConnect st a).2.conn_reqs a = some ⟨a, 0, []⟩ := by
    rw [hst, dictGet_insert]; simp
  have hgb : dictGet (mockConnect st a).2.conn_reqs b = none := by
    rw [hst, dictGet_insert, if_neg hab, hget]
  have hmb : dictMember (mockConnect st a).2.conn_reqs b = false := by
    rw [dictMember_eq_isSome, hgb]; rfl
  have hma' : dictMember (mockConnect st a).2.conn_reqs a = true := by
    rw [dictMember_eq_isSome, hga]; rfl
  have hst2 : (mockConnect (mockConnect st a).2 b).2.conn_reqs
      = dictInsert (mockConnect st a).2.conn_reqs b ⟨b, 0, []⟩ := by
    rw [mockConnect_fresh hmb]
  refine ⟨hga, by rw [mockConnect_already hma'], hgb, ?_, ?_, ?_⟩
  · rw [mockConnect_ok_iff]; exact hmb
  · rw [dictMember_eq_isSome, hst2, dictGet_insert, if_neg (Ne.symm hab), hga]; rfl
  · rw [dictMember_eq_isSome, hst2, dictGet_insert, if_pos rfl]; rfl

/-- C9 (witness): the amended lookup theorem applied at the concrete
addresses `"AA:BB:CC:DD:EE:FF"` and its lower-case variant on a fresh
mock access point. -/
theorem address_lookup_exact_match_witness :
    ("aa:bb:cc:dd:ee:ff" : String) ≠ "AA:BB:CC:DD:EE:FF"
    ∧ dictMember MockState.init.conn_reqs "aa:bb:cc:dd:ee:ff" = false
    ∧ (mockConnect MockState.init "AA:BB:CC:DD:EE:FF").1 = .ok ()
    ∧ get_connection (mockConnect MockState.init "AA:BB:CC:DD:EE:FF").2.conn_reqs
        "AA:BB:CC:DD:EE:FF" = some ⟨"AA:BB:CC:DD:EE:FF", 0, []⟩ :=
  ⟨by decide, by decide, by decide,
   (address_lookup_exact_match MockState.init "AA:BB:CC:DD:EE:FF"
     "aa:bb:cc:dd:ee:ff" (by decide) (by decide) (by decide)).1⟩

/-- C5: after a successful silabs `connect(A)`, `getConnection(A)` is a
non-null connection registered with the operation's handle and an empty
service map, and a subsequent `connect(A)` — on any state still holding
A — fails with ConnectionError; discover, subscribe and unsubscribe
never deregister an address, so the failure persists until a
disconnect or backend link loss removes the entry; the mock backend
behaves the same (handle 0), and after its `disconnect(A)` a new
`connect(A)` succeeds again. -/
theorem connect_registers_until_teardown
    (st : SilabsState) (a : String) (m h : Nat)
    (hok : (silabsConnect st a m (some h)).1 = .ok ()) :
    get_connection (silabsConnect st a m (some h)).2.conn_reqs a = some ⟨a, h, []⟩
    ∧ (∀ (st₂ : SilabsState) (m' : Nat) (o : Option Nat),
        dictMember st₂.conn_reqs a = true →
        ∃ msg, (silabsConnect st₂ a m' o).1 = .exn (.connectionError msg))
    ∧ (∀ (st₂ : SilabsState) (b : String) (req : List String) (script : List BtEvent),
        dictMember ((silabsDiscover st₂ b req script).2.1.conn_reqs) a
          = dictMember st₂.conn_reqs a)
    ∧ (∀ (st₂ : SilabsState) (b s c : String),
        (silabsSubscribe st₂ b s c).2.1.conn_reqs = st₂.conn_reqs)
    ∧ (∀ (st₂ : SilabsState) (b s c : String),
        (silabsUnsubscribe st₂ b s c).2.1.conn_reqs = st₂.conn_reqs)
    ∧ (∀ (mst : MockState), (mockConnect mst a).1 = .ok () →
        get_connection (mockConnect mst a).2.conn_reqs a = some ⟨a, 0, []⟩
        ∧ (mockConnect (mockConnect mst a).2 a).1
            = .exn (.connectionError "already connected"))
    ∧ (∀ (mst : MockState), dictMember mst.conn_reqs a = true →
        (mockConnect (mockDisconnect mst a).2 a).1 = .ok ()) := by
  refine ⟨?_, fun st₂ m' o hm => silabsConnect_exn_of_member m' o hm,
          fun st₂ b req script => silabsDiscover_member st₂ a b req script,
          fun st₂ b s c => silabsSubscribe_conn_reqs st₂ b s c,
          fun st₂ b s c => silabsUnsubscribe_conn_reqs st₂ b s c,
          ?_, ?_⟩
  · show dictGet (silabsConnect st a m (some h)).2.conn_reqs a = _
    rw [silabsConnect_ok hok, dictGet_insert, if_pos rfl]
  · intro mst hmok
    have hmm : dictMember mst.conn_reqs a = false := (mockConnect_ok_iff mst a).mp hmok
    have hg : dictGet (mockConnect mst a).2.conn_reqs a = some ⟨a, 0, []⟩ := by
      rw [mockConnect_fresh hmm, dictGet_insert, if_pos rfl]
    refine ⟨hg, ?_⟩
    have hmem : dictMember (mockConnect mst a).2.conn_reqs a = true := by
      rw [dictMember_eq_isSome, hg]; rfl
    rw [mockConnect_already hmem]
  · intro mst hm
    rw [mockConnect_ok_iff]
    have hpop : (mockDisconnect mst a).2.conn_reqs = dictPop mst.conn_reqs a := by
      simp [mockDisconnect, hm]
    rw [hpop, dictMember_eq_isSome, dictGet_pop, if_pos rfl]
    rfl

/-- C5 (witness): the lifecycle theorem applied to a fresh silabs
access point with capacity 1, address `"C1:5C:00:00:00:00"`, and a
backend connect that succeeds with handle 5. -/
theorem connect_registers_until_teardown_witness :
    (silabsConnect ⟨[], [], []⟩ "C1:5C:00:00:00:00" 1 (some 5)).1 = .ok ()
    ∧ get_connection (silabsConnect ⟨[], [], []⟩ "C1:5C:00:00:00:00" 1 (some 5)).2.conn_reqs
        "C1:5C:00:00:00:00" = some ⟨"C1:5C:00:00:00:00", 5, []⟩ :=
  ⟨by decide,
   (connect_registers_until_teardown ⟨[], [], []⟩ "C1:5C:00:00:00:00" 1 5 (by decide)).1⟩

/-- A silabs access point with one connection (`"A"`, handle 1) whose
cached service map holds service `"180d"` containing the notify
characteristic `"2a37"` (characteristic handle 5). -/
def silabsOneCharState : SilabsState :=
  ⟨[("A", ⟨"A", 1,
      [("180d", ⟨"180d", 1, [("2a37", Characteristic.make "2a37" 5 0x10)]⟩)]⟩)],
   [], []⟩

/-- C6 (counterexample): on a mock access point connected to `"A"`,
`unsubscribe("A","180d","2a37")` with no live subscription raises
`BleSubscribeError`, not the unsubscribe error kind the claim names;
and on a silabs access point a second `subscribe` for the same key
succeeds instead of failing with "already subscribed". -/
theorem subscription_exclusivity_cex :
    (mockUnsubscribe (mockConnect MockState.init "A").2 "A" "180d" "2a37").1
        = .exn (.subscribeError "not subscribed")
    ∧ (mockUnsubscribe (mockConnect MockState.init "A").2 "A" "180d" "2a37").1
        ≠ .exn (.unsubscribeError "not subscribed")
    ∧ (silabsSubscribe silabsOneCharState "A" "180d" "2a37").1
        = .ok ⟨"A", "180d", "2a37", true⟩
    ∧ (silabsSubscribe (silabsSubscribe silabsOneCharState "A" "180d" "2a37").2.1
        "A" "180d" "2a37").1 = .ok ⟨"A", "180d", "2a37", true⟩ := by
  decide

/-- C6 (amended): subscription exclusivity is enforced only by the mock
backend, and the not-subscribed failure carries the subscribe error
kind there: in the mock, a first `subscribe(A,S,C)` succeeds and a
second one without an intervening unsubscribe fails with
SubscribeError "already subscribed", while `unsubscribe(A,S,C)` with
no live subscription for exactly that key fails with SubscribeError
(not UnsubscribeError) "not subscribed"; in the silabs backend
`unsubscribe` without a matching subscription fails with
UnsubscribeError "not subscribed", but `subscribe` performs no
exclusivity check — a second subscribe for the same key also succeeds. -/
theorem subscription_exclusivity_amended
    (mst : MockState) (st : SilabsState) (a s c : String)
    (cr : ConnectionRequest) (svc : Service) (ch : Characteristic)
    (hconn : dictMember mst.conn_reqs a = true)
    (hnew : mst.subscription_threads.contains (a, s, c) = false)
    (h1 : dictGet st.conn_reqs a = some cr)
    (h2 : dictGet cr.services s = some svc)
    (h3 : dictGet svc.characteristics c = some ch) :
    (mockSubscribe mst a s c).1 = .ok ⟨a, s, c, true⟩
    ∧ (mockSubscribe (mockSubscribe mst a s c).2 a s c).1
        = .exn (.subscribeError "already subscribed")
    ∧ (mockUnsubscribe mst a s c).1 = .exn (.subscribeError "not subscribed")
    ∧ ((st.subscribe_ops.find? fun o =>
          o.handle == cr.handle && o.char_handle == ch.char_handle) = none →
        (silabsUnsubscribe st a s c).1 = .exn (.unsubscribeError "not subscribed"))
    ∧ (silabsSubscribe st a s c).1 = .ok ⟨a, s, c, true⟩
    ∧ (silabsSubscribe (silabsSubscribe st a s c).2.1 a s c).1
        = .ok ⟨a, s, c, true⟩ := by
  refine ⟨?_, ?_, ?_, ?_, ?_, ?_⟩
  · rw [mockSubscribe_ok hconn hnew]
  · rw [mockSubscribe_ok hconn hnew]
    have hmem : (mst.subscription_threads ++ [(a, s, c)]).contains (a, s, c) = true := by
      simp
    simp [mockSubscribe, hconn, hmem]
  · have hnotin : (a, s, c) ∉ mst.subscription_threads := by
      simpa using hnew
    simp [mockUnsubscribe, hnotin]
  · intro hfind
    simp [silabsUnsubscribe, h1, h2, h3, hfind]
  · rw [silabsSubscribe_ok h1 h2 h3]
  · rw [silabsSubscribe_ok h1 h2 h3]
    have h1' : dictGet ({ st with subscribe_ops :=
        st.subscribe_ops ++ [⟨cr.handle, ch.char_handle, a, s, c⟩] } : SilabsState).conn_reqs a
        = some cr := h1
    dsimp only
    rw [silabsSubscribe_ok h1' h2 h3]

/-- C6 (witness): the amended subscription theorem applied to a mock
access point connected to `"A"` with no live subscriptions and to the
one-characteristic silabs state. -/
theorem subscription_exclusivity_amended_witness :
    dictMember (mockConnect MockState.init "A").2.conn_reqs "A" = true
    ∧ (mockConnect MockState.init "A").2.subscription_threads.contains
        ("A", "180d", "2a37") = false
    ∧ dictGet silabsOneCharState.conn_reqs "A"
        = some ⟨"A", 1, [("180d", ⟨"180d", 1,
            [("2a37", Characteristic.make "2a37" 5 0x10)]⟩)]⟩
    ∧ (mockSubscribe (mockConnect MockState.init "A").2 "A" "180d" "2a37").1
        = .ok ⟨"A", "180d", "2a37", true⟩ :=
  ⟨by decide, by decide, by decide,
   (subscription_exclusivity_amended (mockConnect MockState.init "A").2
     silabsOneCharState "A" "180d" "2a37"
     ⟨"A", 1, [("180d", ⟨"180d", 1, [("2a37", Characteristic.make "2a37" 5 0x10)]⟩)]⟩
     ⟨"180d", 1, [("2a37", Characteristic.make "2a37" 5 0x10)]⟩
     (Characteristic.make "2a37" 5 0x10)
     (by decide) (by decide) (by decide) (by decide) (by decide)).1⟩

/-- C2 (counterexample): on the silabs backend with `"A"` connected at
handle 1, a successful caller `disconnect("A")` followed by the
backend link-closed event for handle 1 removes the registry entry and
raises nothing, but publishes no connection-status event at all — not
the exactly-one connected=false publish the claim requires. -/
theorem teardown_publish_cex :
    (silabsDisconnect ⟨[("A", ⟨"A", 1, []⟩)], [], []⟩ "A" true).1 = .ok ()
    ∧ (silabsApEvent (silabsDisconnect ⟨[("A", ⟨"A", 1, []⟩)], [], []⟩ "A" true).2.1
        (.connectionClosed 0 1)).conn_reqs = []
    ∧ (silabsApEvent (silabsDisconnect ⟨[("A", ⟨"A", 1, []⟩)], [], []⟩ "A" true).2.1
        (.connectionClosed 0 1)).published = [] := by
  decide

/-- C2 (amended): registry removal is single-shot and idempotent, but
the disconnected publish differs per backend and is absent in the
silabs one: silabs `disconnect` never mutates the registry and never
publishes (removal happens only in the link-closed handler keyed by
connection handle), the link-closed handler publishes nothing on any
path, and a link-closed event for a handle with no registry entry —
e.g. a repeat delivery after cleanup — is a complete no-op and raises
nothing; the mock backend, which has no backend-initiated path,
removes the entry and publishes exactly one connected=false status
event on `disconnect(A)`, and a second `disconnect(A)` raises
DisconnectError rather than publishing again. -/
theorem teardown_single_shot_amended
    (st : SilabsState) (a : String) (acked : Bool)
    (cr : ConnectionRequest) (h1 : dictGet st.conn_reqs a = some cr)
    (mst : MockState) (hm : dictMember mst.conn_reqs a = true) :
    (silabsDisconnect st a acked).2.1 = st
    ∧ (∀ (conn : Nat) (st₂ : SilabsState),
        (silabsApEvent st₂ (.connectionClosed 0 conn)).published = st₂.published)
    ∧ (∀ (conn : Nat) (st₂ : SilabsState),
        st₂.conn_reqs.find? (fun p => p.2.handle == conn) = none →
        silabsApEvent st₂ (.connectionClosed 0 conn) = st₂)
    ∧ (mockDisconnect mst a).1 = .ok ()
    ∧ (mockDisconnect mst a).2.conn_reqs = dictPop mst.conn_reqs a
    ∧ (mockDisconnect mst a).2.published
        = mst.published ++ [.connectionStatus 1 a false]
    ∧ (mockDisconnect (mockDisconnect mst a).2 a).1
        = .exn (.disconnectError "not connected") := by
  refine ⟨?_, ?_, ?_, ?_, ?_, ?_, ?_⟩
  · cases acked <;> simp [silabsDisconnect, h1]
  · intro conn st₂
    cases hf : st₂.conn_reqs.find? (fun p => p.2.handle == conn) with
    | none => simp [silabsApEvent, btEvtConnectionClosed, hf]
    | some p => simp [silabsApEvent, btEvtConnectionClosed, hf]
  · intro conn st₂ hf
    simp [silabsApEvent, btEvtConnectionClosed, hf]
  · simp [mockDisconnect, hm]
  · simp [mockDisconnect, hm]
  · simp [mockDisconnect, hm]
  · have hpop : (mockDisconnect mst a).2.conn_reqs = dictPop mst.conn_reqs a := by
      simp [mockDisconnect, hm]
    have hm2 : dictMember (mockDisconnect mst a).2.conn_reqs a = false := by
      rw [hpop, dictMember_eq_isSome, dictGet_pop, if_pos rfl]
      rfl
    rw [mockDisconnect_absent hm2]

/-- C2 (witness): the teardown theorem applied to a silabs access
point with `"A"` connected at handle 1 and a mock access point
connected to `"A"`. -/
theorem teardown_single_shot_amended_witness :
    dictGet (⟨[("A", ⟨"A", 1, []⟩)], [], []⟩ : SilabsState).conn_reqs "A"
        = some ⟨"A", 1, []⟩
    ∧ dictMember (mockConnect MockState.init "A").2.conn_reqs "A" = true
    ∧ (silabsDisconnect ⟨[("A", ⟨"A", 1, []⟩)], [], []⟩ "A" true).2.1
        = ⟨[("A", ⟨"A", 1, []⟩)], [], []⟩ :=
  ⟨by decide, by decide,
   (teardown_single_shot_amended ⟨[("A", ⟨"A", 1, []⟩)], [], []⟩ "A" true
     ⟨"A", 1, []⟩ (by decide) (mockConnect MockState.init "A").2 (by decide)).1⟩

/-- C7: the silabs write reports `success=true` only once the backend's
procedure-completed acknowledgment for its connection has been
consumed from the event stream: a returned response implies such an
event is in the script and carries `success=true`; with no such event
the call never returns (blocked on `wait()`), so mere command issuance
is never reported as success. -/
theorem write_success_requires_ack
    (st : SilabsState) (a s c : String) (v : List Nat) (script : List BtEvent)
    (cr : ConnectionRequest) (svc : Service) (ch : Characteristic)
    (h1 : dictGet st.conn_reqs a = some cr)
    (h2 : dictGet cr.services s = some svc)
    (h3 : dictGet svc.characteristics c = some ch) :
    (∀ resp, (silabsWrite st a s c v script).1 = .ok resp →
        resp.success = true
        ∧ ∃ r, BtEvent.gattProcedureCompleted cr.handle r ∈ script)
    ∧ ((∀ r, BtEvent.gattProcedureCompleted cr.handle r ∉ script) →
        (silabsWrite st a s c v script).1 = .blocked) := by
  constructor
  · intro resp hresp
    cases hw : writeWait ⟨cr.handle, ch.char_handle, v, false, false⟩ script with
    | none => simp [silabsWrite, h1, h2, h3, hw] at hresp
    | some pr =>
        have hmem : ∃ r, BtEvent.gattProcedureCompleted cr.handle r ∈ script := by
          have hs := (writeWait_isSome_iff
            ⟨cr.handle, ch.char_handle, v, false, false⟩ script rfl).mp
            (by rw [hw]; rfl)
          simpa using hs
        simp [silabsWrite, h1, h2, h3, hw] at hresp
        exact ⟨by rw [← hresp], hmem⟩
  · intro hno
    have hnone : writeWait ⟨cr.handle, ch.char_handle, v, false, false⟩ script = none := by
      cases hw : writeWait ⟨cr.handle, ch.char_handle, v, false, false⟩ script with
      | none => rfl
      | some pr =>
          have hs := (writeWait_isSome_iff
            ⟨cr.handle, ch.char_handle, v, false, false⟩ script rfl).mp
            (by rw [hw]; rfl)
          obtain ⟨r, hr⟩ := hs
          exact absurd hr (hno r)
    simp [silabsWrite, h1, h2, h3, hnone]

/-- C7 (witness): on the one-characteristic silabs state, a write of
`[1, 2]` against a script holding one procedure-completed event for
connection handle 1 returns a success response, and the matching
acknowledgment event is indeed in the script. -/
theorem write_success_requires_ack_witness :
    dictGet silabsOneCharState.conn_reqs "A"
        = some ⟨"A", 1, [("180d", ⟨"180d", 1,
            [("2a37", Characteristic.make "2a37" 5 0x10)]⟩)]⟩
    ∧ (silabsWrite silabsOneCharState "A" "180d" "2a37" [1, 2]
        [.gattProcedureCompleted 1 0]).1
        = .ok ⟨"A", "180d", "2a37", some [1, 2], true⟩
    ∧ ∃ r, BtEvent.gattProcedureCompleted 1 r ∈ [BtEvent.gattProcedureCompleted 1 0] :=
  ⟨by decide, by decide,
   ((write_success_requires_ack silabsOneCharState "A" "180d" "2a37" [1, 2]
      [.gattProcedureCompleted 1 0]
      ⟨"A", 1, [("180d", ⟨"180d", 1, [("2a37", Characteristic.make "2a37" 5 0x10)]⟩)]⟩
      ⟨"180d", 1, [("2a37", Characteristic.make "2a37" 5 0x10)]⟩
      (Characteristic.make "2a37" 5 0x10)
      (by decide) (by decide) (by decide)).1
     ⟨"A", "180d", "2a37", some [1, 2], true⟩ (by decide)).2⟩

/-- C10: every silabs read that returns does so with a `ReadResponse`
whose address field is the backend connection handle rendered as a
decimal string (not the caller's address), whose `service_uuid` and
`char_uuid` fields are empty strings, and whose value is exactly the
bytes of a consumed read-response characteristic-value event; with no
such event the call blocks, and `ReadOperation.response` on an
unsignalled operation carries value `None` (with the same
handle-as-address field). -/
theorem silabs_read_response_shape
    (st : SilabsState) (a s c : String) (script : List BtEvent)
    (cr : ConnectionRequest) (svc : Service) (ch : Characteristic)
    (h1 : dictGet st.conn_reqs a = some cr)
    (h2 : dictGet cr.services s = some svc)
    (h3 : dictGet svc.characteristics c = some ch) :
    (∀ resp, (silabsRead st a s c script).1 = .ok resp →
        resp.address = toString cr.handle
        ∧ resp.service_uuid = "" ∧ resp.char_uuid = ""
        ∧ ∃ v, resp.value = some v
            ∧ BtEvent.gattCharacteristicValue cr.handle ch.char_handle
                ATT_OPCODE_READ_RESPONSE v ∈ script)
    ∧ ((∀ v, BtEvent.gattCharacteristicValue cr.handle ch.char_handle
          ATT_OPCODE_READ_RESPONSE v ∉ script) →
        (silabsRead st a s c script).1 = .blocked)
    ∧ (∀ op : ReadOpSt, op.isSet = false →
        (readOpResponse op).value = none
        ∧ (readOpResponse op).address = toString op.handle) := by
  refine ⟨?_, ?_, ?_⟩
  · intro resp hresp
    cases hw : readWait ⟨cr.handle, ch.char_handle, none, false, false⟩ script with
    | none => simp [silabsRead, h1, h2, h3, hw] at hresp
    | some pr =>
        obtain ⟨hh, hs, v, hv, hmem⟩ :=
          (readWait_spec ⟨cr.handle, ch.char_handle, none, false, false⟩ script rfl).1
            pr.1 pr.2 (by rw [hw])
        simp [silabsRead, h1, h2, h3, hw] at hresp
        refine ⟨?_, ?_, ?_, v, ?_, hmem⟩
        · rw [← hresp, readOpResponse, if_pos hs, hh]
        · rw [← hresp, readOpResponse, if_pos hs]
        · rw [← hresp, readOpResponse, if_pos hs]
        · rw [← hresp, readOpResponse, if_pos hs]
          exact hv
  · intro hno
    have hnone : readWait ⟨cr.handle, ch.char_handle, none, false, false⟩ script = none :=
      (readWait_spec ⟨cr.handle, ch.char_handle, none, false, false⟩ script rfl).2 hno
    simp [silabsRead, h1, h2, h3, hnone]
  · intro op hset
    rw [readOpResponse, if_neg (by simp [hset])]
    exact ⟨rfl, rfl⟩

/-- C10 (witness): on the one-characteristic silabs state (connection
handle 1, characteristic handle 5), a read whose script carries one
read-response value event returns address `"1"`, empty UUID fields and
the event's bytes. -/
theorem silabs_read_response_shape_witness :
    (silabsRead silabsOneCharState "A" "180d" "2a37"
        [.gattCharacteristicValue 1 5 11 [7, 8]]).1
        = .ok ⟨"1", "", "", some [7, 8]⟩
    ∧ ("1" = toString (1 : Nat)
        ∧ ("" : String) = "" ∧ ("" : String) = ""
        ∧ ∃ v, (some [7, 8] : Option (List Nat)) = some v
            ∧ BtEvent.gattCharacteristicValue 1 5 ATT_OPCODE_READ_RESPONSE v
                ∈ [BtEvent.gattCharacteristicValue 1 5 11 [7, 8]]) :=
  ⟨by decide,
   by
    have hfields :=
      (silabs_read_response_shape silabsOneCharState "A" "180d" "2a37"
        [.gattCharacteristicValue 1 5 11 [7, 8]]
        ⟨"A", 1, [("180d", ⟨"180d", 1, [("2a37", Characteristic.make "2a37" 5 0x10)]⟩)]⟩
        ⟨"180d", 1, [("2a37", Characteristic.make "2a37" 5 0x10)]⟩
        (Characteristic.make "2a37" 5 0x10)
        (by decide) (by decide) (by decide)).1
        ⟨"1", "", "", some [7, 8]⟩ (by decide)
    simpa [Characteristic.make] using hfields⟩

/-- C3 (counterexample): with `"A"` connected at handle 1 and a script
in which the primary-service phase succeeds (one service, handle 10)
but the characteristic phase completes with non-zero result 257,
discover raises nothing: it returns a SUCCESS response carrying the
partially populated service map (the one service, no characteristics)
and caches it; the command trace confirms the descriptor phase was
never started, but no DiscoveryError is raised. -/
theorem discover_phase_failure_cex :
    silabsDiscover ⟨[("A", ⟨"A", 1, []⟩)], [], []⟩ "A" []
        [.gattService 1 "s1" 10, .gattProcedureCompleted 1 0,
         .gattProcedureCompleted 1 257]
      = (.ok ⟨"A", [⟨"s1", 10, []⟩]⟩,
         ⟨[("A", ⟨"A", 1, [("s1", ⟨"s1", 10, []⟩)]⟩)], [], []⟩,
         [.discoverPrimaryServices 1, .discoverCharacteristics 1 10]) := by
  decide

/-- C3 (amended): the three discovery phases run strictly sequentially
and a non-zero phase result stops the walk before any further phase
command, but the failure is only logged, never surfaced: discover never
raises any exception once the address is connected; whenever the walk
returns — fully done or aborted at the first failing phase — the call
returns a success response whose services are exactly the walk's
(possibly partial) service map, and caches that same map; in
particular when the very first (primary-service) phase completes with
a non-zero result, the only backend command ever issued is the
primary-service discovery and the call still returns that partial
map as a success. -/
theorem discover_phase_failure_amended
    (st : SilabsState) (a : String) (req : List String) (script : List BtEvent)
    (cr : ConnectionRequest) (h1 : dictGet st.conn_reqs a = some cr) :
    (∀ e, (silabsDiscover st a req script).1 ≠ .exn e)
    ∧ (∀ resp, (silabsDiscover st a req script).1 = .ok resp →
        resp.services = dictValues (discoverRun cr.handle script).1.st.services
        ∧ dictGet (silabsDiscover st a req script).2.1.conn_reqs a
            = some { cr with services := (discoverRun cr.handle script).1.st.services })
    ∧ (∀ st' rest,
        discoverWait ⟨cr.handle, [], none, none, 0, false⟩ script = some (st', rest) →
        st'.result ≠ 0 →
        (silabsDiscover st a req script).1 = .ok ⟨a, dictValues st'.services⟩
        ∧ (silabsDiscover st a req script).2.2
            = [.discoverPrimaryServices cr.handle]) := by
  refine ⟨fun e => silabsDiscover_not_exn h1 e, silabsDiscover_ok_services h1, ?_⟩
  intro st' rest hw hr
  have hrun : discoverRun cr.handle script
      = (⟨st', rest, [.discoverPrimaryServices cr.handle]⟩, .failedPhase) := by
    simp [discoverRun, hw, hr]
  constructor
  · simp [silabsDiscover, h1, hrun]
  · simp [silabsDiscover, h1, hrun]

/-- C3 (witness): the amended discover theorem applied to the
connected state with handle 1 and the two-phase failing script; the
call does not raise DiscoveryError there. -/
theorem discover_phase_failure_amended_witness :
    dictGet (⟨[("A", ⟨"A", 1, []⟩)], [], []⟩ : SilabsState).conn_reqs "A"
        = some ⟨"A", 1, []⟩
    ∧ (silabsDiscover ⟨[("A", ⟨"A", 1, []⟩)], [], []⟩ "A" []
        [.gattService 1 "s1" 10, .gattProcedureCompleted 1 0,
         .gattProcedureCompleted 1 257]).1
        ≠ .exn (.discoveryError "failed to discover characteristics: 257") :=
  ⟨by decide,
   (discover_phase_failure_amended ⟨[("A", ⟨"A", 1, []⟩)], [], []⟩ "A" []
     [.gattService 1 "s1" 10, .gattProcedureCompleted 1 0,
      .gattProcedureCompleted 1 257]
     ⟨"A", 1, []⟩ (by decide)).1
     (.discoveryError "failed to discover characteristics: 257")⟩

/-- C4 (counterexample): with `"A"` connected at handle 1, a filter
naming only `"s1"`, and a fully successful walk discovering services
`"s1"` and `"s2"`, the response contains BOTH services — the filter
has no effect on the returned response. -/
theorem discover_filter_ignored_cex :
    silabsDiscover ⟨[("A", ⟨"A", 1, []⟩)], [], []⟩ "A" ["s1"]
        [.gattService 1 "s1" 10, .gattService 1 "s2" 20,
         .gattProcedureCompleted 1 0, .gattProcedureCompleted 1 0,
         .gattProcedureCompleted 1 0]
      = (.ok ⟨"A", [⟨"s1", 10, []⟩, ⟨"s2", 20, []⟩]⟩,
         ⟨[("A", ⟨"A", 1, [("s1", ⟨"s1", 10, []⟩), ("s2", ⟨"s2", 20, []⟩)]⟩)], [], []⟩,
         [.discoverPrimaryServices 1, .discoverCharacteristics 1 10,
          .discoverCharacteristics 1 20]) := by
  decide

/-- C4 (amended): the silabs discover ignores the service filter
entirely — its whole result is the same for any two filters — and a
successful response carries ALL walked services while the connection's
cached map is replaced by that same full walk result; the mock backend
likewise ignores its options, returns the fixed single-service
response and leaves the cached map untouched. -/
theorem discover_filter_ignored_amended
    (st : SilabsState) (a : String) (req req' : List String)
    (script : List BtEvent) (cr : ConnectionRequest)
    (h1 : dictGet st.conn_reqs a = some cr)
    (mst : MockState) (hm : dictMember mst.conn_reqs a = true) :
    silabsDiscover st a req script = silabsDiscover st a req' script
    ∧ (∀ resp, (silabsDiscover st a req script).1 = .ok resp →
        resp.services = dictValues (discoverRun cr.handle script).1.st.services
        ∧ dictGet (silabsDiscover st a req script).2.1.conn_reqs a
            = some { cr with services := (discoverRun cr.handle script).1.st.services })
    ∧ mockDiscover mst a = (.ok ⟨a, [mockService]⟩, mst) := by
  refine ⟨rfl, silabsDiscover_ok_services h1, ?_⟩
  simp [mockDiscover, hm]

/-- C4 (witness): the filter-independence theorem applied at the
concrete two-service scenario: discover with filter `["s1"]` and with
no filter produce identical results. -/
theorem discover_filter_ignored_amended_witness :
    dictGet (⟨[("A", ⟨"A", 1, []⟩)], [], []⟩ : SilabsState).conn_reqs "A"
        = some ⟨"A", 1, []⟩
    ∧ dictMember (mockConnect MockState.init "A").2.conn_reqs "A" = true
    ∧ silabsDiscover ⟨[("A", ⟨"A", 1, []⟩)], [], []⟩ "A" ["s1"]
        [.gattService 1 "s1" 10, .gattService 1 "s2" 20,
         .gattProcedureCompleted 1 0, .gattProcedureCompleted 1 0,
         .gattProcedureCompleted 1 0]
      = silabsDiscover ⟨[("A", ⟨"A", 1, []⟩)], [], []⟩ "A" []
        [.gattService 1 "s1" 10, .gattService 1 "s2" 20,
         .gattProcedureCompleted 1 0, .gattProcedureCompleted 1 0,
         .gattProcedureCompleted 1 0] :=
  ⟨by decide, by decide,
   (discover_filter_ignored_amended ⟨[("A", ⟨"A", 1, []⟩)], [], []⟩ "A" ["s1"] []
     [.gattService 1 "s1" 10, .gattService 1 "s2" 20,
      .gattProcedureCompleted 1 0, .gattProcedureCompleted 1 0,
      .gattProcedureCompleted 1 0]
     ⟨"A", 1, []⟩ (by decide)
     (mockConnect MockState.init "A").2 (by decide)).1⟩

end Tiedie
